import Mathlib

/-!
Verification development for the bulk-upload column mapper and row
normalizer of `Airent.py` (class `InteractiveParser` and the mapping
logic of `show_bulk_upload`).

Cell values coming out of the tabular file reader are modelled by the
inductive type `Value`: string cells, integer cells, finite float cells
(as exact rationals), the pandas missing value NaN, and date/timestamp
cells at calendar-date precision.  A row is an association list from
column name to `Value`; lookup takes the first matching key.  Python
string methods are modelled over the ASCII character range, and Python
`float(...)` string parsing is modelled for finite decimal literals and
the token "nan" (the hexadecimal, underscore and infinity spellings of
Python float literals do not arise in spreadsheet property data and are
outside the modelled domain).
-/

namespace Airent

/-- Python whitespace characters recognised by `str.strip()`. -/
def isPySpace (c : Char) : Bool :=
  c = ' ' || c = '\t' || c = '\n' || c = '\r' ||
  c = Char.ofNat 11 || c = Char.ofNat 12

/-- Strip leading and trailing whitespace from a character list. -/
def stripList (cs : List Char) : List Char :=
  ((cs.dropWhile isPySpace).reverse.dropWhile isPySpace).reverse

/-- Model of Python `str.strip()`. -/
def pyStrip (s : String) : String := ⟨stripList s.data⟩

/-- ASCII lower-casing of one character. -/
def lowerChar (c : Char) : Char :=
  if 'A' ≤ c ∧ c ≤ 'Z' then Char.ofNat (c.toNat + 32) else c

/-- Model of Python `str.lower()` (ASCII range). -/
def pyLower (s : String) : String := ⟨s.data.map lowerChar⟩

/-- Split a character list at every occurrence of `sep`; like Python
`str.split(sep)`, the empty list yields one empty piece. -/
def splitCharAux (sep : Char) : List Char → List Char → List (List Char)
  | [], acc => [acc.reverse]
  | c :: rest, acc =>
    if c = sep then acc.reverse :: splitCharAux sep rest []
    else splitCharAux sep rest (c :: acc)

/-- Model of Python `str.split(sep)` for a one-character separator. -/
def pySplit (s : String) (sep : Char) : List String :=
  (splitCharAux sep s.data []).map fun l => ⟨l⟩

/-- A calendar date, as produced by `datetime.date` / `pd.Timestamp.date()`. -/
structure PDate where
  year : ℕ
  month : ℕ
  day : ℕ
deriving DecidableEq, Repr

/-- Zero-pad a numeral to two digits. -/
def pad2 (n : ℕ) : String := if n < 10 then "0" ++ toString n else toString n

/-- Zero-pad a numeral to four digits. -/
def pad4 (n : ℕ) : String :=
  if n < 10 then "000" ++ toString n
  else if n < 100 then "00" ++ toString n
  else if n < 1000 then "0" ++ toString n
  else toString n

/-- ISO rendering of a date, as produced by Python `str(datetime.date)`. -/
def PDate.toIso (d : PDate) : String :=
  pad4 d.year ++ "-" ++ pad2 d.month ++ "-" ++ pad2 d.day

/-- A raw spreadsheet cell value as handed over by the tabular reader. -/
inductive Value
  | vstr (s : String)
  | vint (n : ℤ)
  | vfloat (q : ℚ)
  | vnan
  | vdate (d : PDate)
deriving DecidableEq, Repr

/-- Result of Python `float(...)`: a finite value or NaN. -/
inductive PyFloat
  | fin (q : ℚ)
  | fnan
deriving DecidableEq, Repr

/-- Model of `pd.notna` on a cell value. -/
def notna : Value → Bool
  | .vnan => false
  | _ => true

/-- Model of `pd.notna (row.get k)`: `row.get` yields `None` for an absent
key, and `pd.notna None = False`. -/
def notnaOpt : Option Value → Bool
  | none => false
  | some v => notna v

/-- Python `repr` of a float value.  Only the integral case arises in the
properties below; Python prints the shortest round-tripping decimal, which
for an integral float is the integer followed by ".0". -/
def floatRepr (q : ℚ) : String :=
  if q.den = 1 then toString q.num ++ ".0"
  else toString q.num ++ "/" ++ toString q.den

/-- Model of Python `str(...)` on a cell value.  `str(float(nan))` is
"nan"; date-like cells are rendered at calendar-date precision. -/
def pyStr : Value → String
  | .vstr s => s
  | .vint n => toString n
  | .vfloat q => floatRepr q
  | .vnan => "nan"
  | .vdate d => d.toIso

/-- Is `c` an ASCII decimal digit. -/
def isDigitChar (c : Char) : Bool := '0' ≤ c ∧ c ≤ '9'

/-- Numeric value of a digit string (most significant first). -/
def digitsVal (ds : List Char) : ℕ :=
  ds.foldl (fun n c => 10 * n + (c.toNat - '0'.toNat)) 0

/-- All characters are digits. -/
def allDigits (cs : List Char) : Bool := cs.all isDigitChar

/-- Split a float literal body at the first `e`/`E` exponent marker. -/
def splitExp : List Char → List Char × Option (List Char)
  | [] => ([], none)
  | c :: rest =>
    if c = 'e' ∨ c = 'E' then ([], some rest)
    else
      let p := splitExp rest
      (c :: p.1, p.2)

/-- Split a mantissa at the first decimal point. -/
def splitDot : List Char → List Char × Option (List Char)
  | [] => ([], none)
  | c :: rest =>
    if c = '.' then ([], some rest)
    else
      let p := splitDot rest
      (c :: p.1, p.2)

/-- Parse an unsigned decimal mantissa `digits [. digits]` with at least
one digit, exactly as a rational. -/
def parseMantissa (cs : List Char) : Option ℚ :=
  let p := splitDot cs
  match p.2 with
  | none =>
    if p.1 ≠ [] ∧ allDigits p.1 then some (digitsVal p.1) else none
  | some fp =>
    if allDigits p.1 ∧ allDigits fp ∧ (p.1 ≠ [] ∨ fp ≠ []) then
      some ((digitsVal p.1 : ℚ) + (digitsVal fp : ℚ) / ((10 : ℚ) ^ fp.length))
    else none

/-- Parse an exponent `[+|-] digits`. -/
def parseExp (cs : List Char) : Option ℤ :=
  match cs with
  | '+' :: ds => if ds ≠ [] ∧ allDigits ds then some (digitsVal ds) else none
  | '-' :: ds => if ds ≠ [] ∧ allDigits ds then some (-(digitsVal ds : ℤ)) else none
  | ds => if ds ≠ [] ∧ allDigits ds then some (digitsVal ds) else none

/-- Strip one optional sign; `true` means negative. -/
def parseSign : List Char → Bool × List Char
  | '+' :: r => (false, r)
  | '-' :: r => (true, r)
  | r => (false, r)

/-- Model of Python `float(s)` on a string: optional surrounding
whitespace, optional sign, then either the token "nan" or a finite
decimal literal with optional exponent.  `none` models the `ValueError`
Python raises on anything else. -/
def parseFloatStr (s : String) : Option PyFloat :=
  let cs := stripList s.data
  let p := parseSign cs
  if p.2.map lowerChar = "nan".data then some .fnan
  else
    let me := splitExp p.2
    match parseMantissa me.1, me.2 with
    | some q, none => some (.fin (if p.1 then -q else q))
    | some q, some ecs =>
      match parseExp ecs with
      | some k => some (.fin ((if p.1 then -q else q) * (10 : ℚ) ^ k))
      | none => none
    | none, _ => none

/-- Model of Python `float(v)` on a cell value. -/
def pyFloatV : Value → Except String PyFloat
  | .vstr s =>
    match parseFloatStr s with
    | some f => .ok f
    | none => .error ("could not convert string to float: " ++ s)
  | .vint n => .ok (.fin n)
  | .vfloat q => .ok (.fin q)
  | .vnan => .ok .fnan
  | .vdate _ => .error "float() argument must be a string or a real number"

/-- Python `int(...)` truncation of a rational toward zero. -/
def pytrunc (q : ℚ) : ℤ := if 0 ≤ q then ⌊q⌋ else -⌊-q⌋

/-- Model of Python `int(...)` applied to a float: truncates a finite
value, raises `ValueError` on NaN. -/
def pyIntOfFloat : PyFloat → Except String ℤ
  | .fin q => .ok (pytrunc q)
  | .fnan => .error "cannot convert float NaN to integer"

/-- Model of `pd.to_datetime(s).date()` on the ISO `YYYY-MM-DD` subset of
the strings pandas accepts; `none` models the parse error pandas raises
on non-date text such as "not-a-date". -/
def parseDate (s : String) : Option PDate :=
  match splitCharAux '-' (stripList s.data) [] with
  | [y, m, d] =>
    if y ≠ [] ∧ allDigits y ∧ m ≠ [] ∧ allDigits m ∧ d ≠ [] ∧ allDigits d then
      let mv := digitsVal m
      let dv := digitsVal d
      if 1 ≤ mv ∧ mv ≤ 12 ∧ 1 ≤ dv ∧ dv ≤ 31 then
        some ⟨digitsVal y, mv, dv⟩
      else none
    else none
  | _ => none

/-- A source row: an association list from column name to cell value, as
produced by iterating a dataframe row.  Lookup takes the first match. -/
abbrev Row : Type := List (String × Value)

/-- Model of `k in row.index` / `row.get(k)`: first value stored under
key `k`, if any. -/
def rowGet (row : Row) (k : String) : Option Value :=
  (List.find? (fun p => p.1 = k) row).map Prod.snd

/-- Model of `row[k]`: the stored value, or the `KeyError` Python raises
when the column is absent. -/
def getItem (row : Row) (k : String) : Except String Value :=
  match rowGet row k with
  | some v => .ok v
  | none => .error ("KeyError: " ++ k)

/-- Lines 64-67: `amenities = [a.strip() for a in str(row[...]).split(",")]`
when the column is present and the cell is not NaN, else the empty list. -/
def parseAmenities (row : Row) : List String :=
  match rowGet row "amenities" with
  | some v => if notna v then (pySplit (pyStr v) ',').map pyStrip else []
  | none => []

/-- Lines 69-74 and 88: `available_from` defaults to today's date when the
column is absent; a string cell goes through `pd.to_datetime` (whose parse
failure is an exception); a timestamp cell is taken at date precision; any
other present value is kept and later rendered by `str`. -/
def availFrom (today : PDate) (row : Row) : Except String String :=
  match rowGet row "available_from" with
  | none => .ok today.toIso
  | some (.vstr s) =>
    match parseDate s with
    | some d => .ok d.toIso
    | none => .error ("Unknown datetime string format: " ++ s)
  | some (.vdate d) => .ok d.toIso
  | some v => .ok (pyStr v)

/-- Model of `str(row[k]).lower().strip()` for the required lower-cased
fields. -/
def reqStrLS (row : Row) (k : String) : Except String String :=
  (getItem row k).map fun v => pyStrip (pyLower (pyStr v))

/-- Model of `str(row[k]).strip()` for the required case-preserving
fields. -/
def reqStrS (row : Row) (k : String) : Except String String :=
  (getItem row k).map fun v => pyStrip (pyStr v)

/-- Model of `str(row.get(k, "")).strip()` for the optional text
fields. -/
def optStrS (row : Row) (k : String) : String :=
  match rowGet row k with
  | some v => pyStrip (pyStr v)
  | none => pyStrip (pyStr (.vstr ""))

/-- Model of `int(float(row[k])) if pd.notna(row.get(k)) else None` for
the optional floor fields. -/
def optInt (row : Row) (k : String) : Except String (Option ℤ) :=
  match rowGet row k with
  | some v =>
    if notna v then
      pyFloatV v >>= fun f => pyIntOfFloat f >>= fun n => .ok (some n)
    else .ok none
  | none => .ok none

/-- The normalized output record built at lines 76-92; it holds a value
for every canonical field of the schema. -/
structure PropertyRecord where
  property_type : String
  bhk : String
  area_sqft : ℤ
  city : String
  locality : String
  landmark : String
  floor_no : Option ℤ
  total_floors : Option ℤ
  furnishing_status : String
  rent_amount : PyFloat
  deposit_amount : PyFloat
  available_from : String
  preferred_tenants : String
  amenities : List String
  rough_description : String
deriving DecidableEq, Repr

/-- The body of the per-row `try` block of `clean_and_process`
(lines 63-92): field coercions evaluate in source order and the first
exception rejects the whole row, so no partial record is ever built. -/
def processRow (today : PDate) (row : Row) : Except String PropertyRecord := do
  let amenities := parseAmenities row
  let af ← availFrom today row
  let pt ← reqStrLS row "property_type"
  let bhk ← reqStrS row "bhk"
  let areaF ← getItem row "area_sqft" >>= pyFloatV
  let area ← pyIntOfFloat areaF
  let city ← reqStrS row "city"
  let locality ← reqStrS row "locality"
  let landmark := optStrS row "landmark"
  let floor_no ← optInt row "floor_no"
  let total_floors ← optInt row "total_floors"
  let furn ← reqStrLS row "furnishing_status"
  let rent ← getItem row "rent_amount" >>= pyFloatV
  let deposit ← getItem row "deposit_amount" >>= pyFloatV
  let tenants ← reqStrS row "preferred_tenants"
  let rough := optStrS row "rough_description"
  return { property_type := pt, bhk := bhk, area_sqft := area, city := city,
           locality := locality, landmark := landmark, floor_no := floor_no,
           total_floors := total_floors, furnishing_status := furn,
           rent_amount := rent, deposit_amount := deposit,
           available_from := af, preferred_tenants := tenants,
           amenities := amenities, rough_description := rough }

/-- The loop of `clean_and_process` (lines 60-96) with the positional row
index threaded explicitly: a successful row appends its record, a failed
row appends the diagnostic `Row (idx+2): reason` to the error report. -/
def cleanAux (today : PDate) : ℕ → List Row → List PropertyRecord × List String
  | _, [] => ([], [])
  | i, r :: rs =>
    let rest := cleanAux today (i + 1) rs
    match processRow today r with
    | .ok rec => (rec :: rest.1, rest.2)
    | .error e => (rest.1, ("Row " ++ toString (i + 2) ++ ": " ++ e) :: rest.2)

/-- Model of `clean_and_process(df)`: the returned `properties` list
together with the errors appended to `self.errors` during the call.  The
ambient clock `datetime.now().date()` is passed explicitly as `today`. -/
def clean_and_process (today : PDate) (rows : List Row) :
    List PropertyRecord × List String :=
  cleanAux today 0 rows

/-- Lines 26-37: the `REQUIRED_FIELDS` dict of `InteractiveParser`, in
insertion order (Python dicts preserve it). -/
def REQUIRED_FIELDS : List (String × String) :=
  [("property_type", "Type of property (flat, villa, pg, shop, office)"),
   ("bhk", "Number of bedrooms (2, 3, 1 BHK)"),
   ("area_sqft", "Area in square feet"),
   ("city", "City name (Mumbai, Delhi, etc)"),
   ("locality", "Area/Locality name"),
   ("furnishing_status", "Furnishing (unfurnished, semi, fully)"),
   ("rent_amount", "Monthly rent amount"),
   ("deposit_amount", "Security deposit amount"),
   ("available_from", "Date when available"),
   ("preferred_tenants", "Type of tenants (Family, Bachelor, etc)")]

/-- Lines 1989-2005 of `show_bulk_upload`: the required fields that have
no entry in the (canonical-field keyed) column mapping, in the
declaration order of `REQUIRED_FIELDS`. -/
def missing_required_fields (mapping : List (String × String)) : List String :=
  (REQUIRED_FIELDS.filter fun p =>
    (List.find? (fun q => q.1 = p.1) mapping).isNone).map Prod.fst

/-- Modelled from the spec: the enumerated canonical schema fields
(§3); the automatic alias-matching column detector of §4.1 is not part
of `src/Airent.py` (whose mapping step is manual), so the fields and
the alias table are taken from the spec's own description. -/
inductive CanonicalField
  | property_type
  | bhk
  | area_sqft
  | city
  | locality
  | landmark
  | floor_no
  | total_floors
  | furnishing_status
  | rent_amount
  | deposit_amount
  | available_from
  | preferred_tenants
  | amenities
  | rough_description
deriving DecidableEq, Repr

/-- Modelled from the spec: canonical-field iteration order (declaration
order of §3), used by the tie-break of §4.1. -/
def canonicalFieldList : List CanonicalField :=
  [.property_type, .bhk, .area_sqft, .city, .locality, .landmark,
   .floor_no, .total_floors, .furnishing_status, .rent_amount,
   .deposit_amount, .available_from, .preferred_tenants, .amenities,
   .rough_description]

/-- Modelled from the spec: the alias table of §3/§4.1/§8 — known
spellings a source column may use for each canonical field, including
the examples the spec fixes ("Rent", "Rent Amount", "Monthly Rent" for
`rent_amount`; "Area (sqft)" for `area_sqft`; "Area" for `locality`). -/
def fieldAliases : CanonicalField → List String
  | .property_type => ["Property Type", "property_type", "Type"]
  | .bhk => ["BHK", "bhk", "Bedrooms"]
  | .area_sqft => ["Area (sqft)", "area_sqft", "Area Sqft"]
  | .city => ["City", "city"]
  | .locality => ["Area", "Locality", "locality"]
  | .landmark => ["Landmark", "landmark"]
  | .floor_no => ["Floor No", "floor_no", "Floor"]
  | .total_floors => ["Total Floors", "total_floors"]
  | .furnishing_status => ["Furnishing", "furnishing_status", "Furnishing Status"]
  | .rent_amount => ["Rent", "Rent Amount", "Monthly Rent", "rent_amount"]
  | .deposit_amount => ["Deposit", "Deposit Amount", "deposit_amount"]
  | .available_from => ["Available From", "available_from"]
  | .preferred_tenants => ["Tenant Type", "Preferred Tenants", "preferred_tenants"]
  | .amenities => ["Amenities", "amenities"]
  | .rough_description => ["Description", "rough_description"]

/-- Modelled from the spec: §4.1 per-column matching — trim the
candidate, test exact alias membership scanning fields in canonical
order, then case-insensitive membership, else no match. -/
def matchColumn (c : String) : Option CanonicalField :=
  let t := pyStrip c
  match canonicalFieldList.find? (fun f => (fieldAliases f).contains t) with
  | some f => some f
  | none =>
    canonicalFieldList.find? fun f =>
      ((fieldAliases f).map pyLower).contains (pyLower t)

/-- Modelled from the spec: `auto_detect` of §4.1 — per source column in
order, first match wins; unmatched columns are returned in order. -/
def auto_detect : List String → List (String × CanonicalField) × List String
  | [] => ([], [])
  | c :: rest =>
    let r := auto_detect rest
    match matchColumn c with
    | some f => ((c, f) :: r.1, r.2)
    | none => (r.1, c :: r.2)

/-! Concrete sample data used to instantiate the theorems below. -/

/-- A fixed value for the ambient clock. -/
def sampleToday : PDate := ⟨2024, 1, 15⟩

/-- A row carrying exactly the ten required columns, all valid. -/
def rowMin : Row :=
  [("property_type", .vstr "Flat"), ("bhk", .vstr "2"),
   ("area_sqft", .vstr "1200"), ("city", .vstr "Mumbai"),
   ("locality", .vstr "Andheri West"), ("furnishing_status", .vstr "Semi"),
   ("rent_amount", .vstr "25000"), ("deposit_amount", .vstr "50000"),
   ("available_from", .vstr "2024-12-01"), ("preferred_tenants", .vstr "Family")]

/-- The record `rowMin` normalizes to. -/
def recMin : PropertyRecord :=
  { property_type := "flat", bhk := "2", area_sqft := 1200, city := "Mumbai",
    locality := "Andheri West", landmark := "", floor_no := none,
    total_floors := none, furnishing_status := "semi",
    rent_amount := .fin 25000, deposit_amount := .fin 50000,
    available_from := "2024-12-01", preferred_tenants := "Family",
    amenities := [], rough_description := "" }

/-- Like `rowMin` but with an unparsable `available_from` cell. -/
def rowBadDate : Row :=
  [("property_type", .vstr "Flat"), ("bhk", .vstr "2"),
   ("area_sqft", .vstr "1200"), ("city", .vstr "Mumbai"),
   ("locality", .vstr "Andheri West"), ("furnishing_status", .vstr "Semi"),
   ("rent_amount", .vstr "25000"), ("deposit_amount", .vstr "50000"),
   ("available_from", .vstr "not-a-date"), ("preferred_tenants", .vstr "Family")]

/-- Like `rowMin` but with no `available_from` column at all. -/
def rowNoDate : Row :=
  [("property_type", .vstr "Flat"), ("bhk", .vstr "2"),
   ("area_sqft", .vstr "1200"), ("city", .vstr "Mumbai"),
   ("locality", .vstr "Andheri West"), ("furnishing_status", .vstr "Semi"),
   ("rent_amount", .vstr "25000"), ("deposit_amount", .vstr "50000"),
   ("preferred_tenants", .vstr "Family")]

/-- The record `rowNoDate` normalizes to under `sampleToday`. -/
def recNoDate : PropertyRecord :=
  { property_type := "flat", bhk := "2", area_sqft := 1200, city := "Mumbai",
    locality := "Andheri West", landmark := "", floor_no := none,
    total_floors := none, furnishing_status := "semi",
    rent_amount := .fin 25000, deposit_amount := .fin 50000,
    available_from := "2024-01-15", preferred_tenants := "Family",
    amenities := [], rough_description := "" }

/-- Like `rowMin` but the required `city` cell is the empty string. -/
def rowEmptyCity : Row :=
  [("property_type", .vstr "Flat"), ("bhk", .vstr "2"),
   ("area_sqft", .vstr "1200"), ("city", .vstr ""),
   ("locality", .vstr "Andheri West"), ("furnishing_status", .vstr "Semi"),
   ("rent_amount", .vstr "25000"), ("deposit_amount", .vstr "50000"),
   ("available_from", .vstr "2024-12-01"), ("preferred_tenants", .vstr "Family")]

/-- Like `rowMin` but with a fractional `area_sqft` cell. -/
def rowArea : Row :=
  [("property_type", .vstr "Flat"), ("bhk", .vstr "2"),
   ("area_sqft", .vstr "1200.7"), ("city", .vstr "Mumbai"),
   ("locality", .vstr "Andheri West"), ("furnishing_status", .vstr "Semi"),
   ("rent_amount", .vstr "25000"), ("deposit_amount", .vstr "50000"),
   ("available_from", .vstr "2024-12-01"), ("preferred_tenants", .vstr "Family")]

/-- The exact rational the float parser builds for the cell "1200.7". -/
def qArea : ℚ := (1200 : ℚ) + (7 : ℚ) / (10 : ℚ) ^ (1 : ℕ)

/-- The record `rowArea` normalizes to. -/
def recArea : PropertyRecord :=
  { property_type := "flat", bhk := "2", area_sqft := pytrunc qArea,
    city := "Mumbai", locality := "Andheri West", landmark := "",
    floor_no := none, total_floors := none, furnishing_status := "semi",
    rent_amount := .fin 25000, deposit_amount := .fin 50000,
    available_from := "2024-12-01", preferred_tenants := "Family",
    amenities := [], rough_description := "" }

/-- Like `rowMin` but with no `area_sqft` column. -/
def rowNoArea : Row :=
  [("property_type", .vstr "Flat"), ("bhk", .vstr "2"),
   ("city", .vstr "Mumbai"),
   ("locality", .vstr "Andheri West"), ("furnishing_status", .vstr "Semi"),
   ("rent_amount", .vstr "25000"), ("deposit_amount", .vstr "50000"),
   ("available_from", .vstr "2024-12-01"), ("preferred_tenants", .vstr "Family")]

/-- Like `rowMin` but with NaN cells in the optional text columns. -/
def rowNan : Row :=
  [("property_type", .vstr "Flat"), ("bhk", .vstr "2"),
   ("area_sqft", .vstr "1200"), ("city", .vstr "Mumbai"),
   ("locality", .vstr "Andheri West"), ("furnishing_status", .vstr "Semi"),
   ("rent_amount", .vstr "25000"), ("deposit_amount", .vstr "50000"),
   ("available_from", .vstr "2024-12-01"), ("preferred_tenants", .vstr "Family"),
   ("landmark", .vnan), ("rough_description", .vnan)]

/-- The record `rowNan` normalizes to. -/
def recNan : PropertyRecord :=
  { property_type := "flat", bhk := "2", area_sqft := 1200, city := "Mumbai",
    locality := "Andheri West", landmark := "nan", floor_no := none,
    total_floors := none, furnishing_status := "semi",
    rent_amount := .fin 25000, deposit_amount := .fin 50000,
    available_from := "2024-12-01", preferred_tenants := "Family",
    amenities := [], rough_description := "nan" }

/-! Helper lemmas shared by the claim theorems. -/

/-- Success of a bound `Except` computation factors through both stages. -/
theorem exceptBind_ok_iff {α β : Type} (x : Except String α)
    (f : α → Except String β) (b : β) :
    x >>= f = Except.ok b ↔ ∃ a, x = Except.ok a ∧ f a = Except.ok b := by
  cases x <;> simp [Bind.bind, Except.bind]

/-- Success of `pure` in `Except` is an equation on the payload. -/
theorem exceptPure_ok_iff {α : Type} (a b : α) :
    (pure a : Except String α) = Except.ok b ↔ a = b := by
  simp [pure, Except.pure]

/-- Success of a mapped `Except` computation factors likewise. -/
theorem exceptMap_ok_iff {α β : Type} (x : Except String α) (g : α → β) (b : β) :
    x.map g = Except.ok b ↔ ∃ a, x = Except.ok a ∧ g a = b := by
  cases x <;> simp [Except.map]

/-- Inversion of a successful `processRow`: every field of the produced
record comes from its coercion in the source, and every fallible
coercion succeeded. -/
theorem processRow_ok_inv (t : PDate) (row : Row) (rec : PropertyRecord)
    (h : processRow t row = .ok rec) :
    availFrom t row = .ok rec.available_from ∧
    reqStrLS row "property_type" = .ok rec.property_type ∧
    reqStrS row "bhk" = .ok rec.bhk ∧
    (∃ v f, getItem row "area_sqft" = .ok v ∧ pyFloatV v = .ok f ∧
      pyIntOfFloat f = .ok rec.area_sqft) ∧
    reqStrS row "city" = .ok rec.city ∧
    reqStrS row "locality" = .ok rec.locality ∧
    rec.landmark = optStrS row "landmark" ∧
    optInt row "floor_no" = .ok rec.floor_no ∧
    optInt row "total_floors" = .ok rec.total_floors ∧
    reqStrLS row "furnishing_status" = .ok rec.furnishing_status ∧
    (∃ v, getItem row "rent_amount" = .ok v ∧ pyFloatV v = .ok rec.rent_amount) ∧
    (∃ v, getItem row "deposit_amount" = .ok v ∧ pyFloatV v = .ok rec.deposit_amount) ∧
    reqStrS row "preferred_tenants" = .ok rec.preferred_tenants ∧
    rec.amenities = parseAmenities row ∧
    rec.rough_description = optStrS row "rough_description" := by
  simp only [processRow, exceptBind_ok_iff, exceptPure_ok_iff] at h
  obtain ⟨af, haf, pt, hpt, bhk, hbhk, fA, ⟨v, hv, hfv⟩, area, harea, city, hcity,
    loc, hloc, fl, hfl, tf, htf, furn, hfurn, rent, ⟨vr, hvr, hfr⟩,
    dep, ⟨vd, hvd, hfd⟩, ten, hten, hrec⟩ := h
  subst hrec
  exact ⟨haf, hpt, hbhk, ⟨v, fA, hv, hfv, harea⟩, hcity, hloc, rfl, hfl, htf,
    hfurn, ⟨vr, hvr, hfr⟩, ⟨vd, hvd, hfd⟩, hten, rfl, rfl⟩

/-- A failed `available_from` computation fails the whole row. -/
theorem processRow_err_of_avail (t : PDate) (row : Row) (e : String)
    (h : availFrom t row = .error e) : processRow t row = .error e := by
  simp only [processRow]
  rw [h]
  rfl

/-- The records half of the loop ignores the row counter. -/
theorem cleanAux_fst (t : PDate) (rows : List Row) :
    ∀ i, (cleanAux t i rows).1 =
      rows.filterMap fun r => (processRow t r).toOption := by
  induction rows with
  | nil => intro i; rfl
  | cons r rs ih =>
    intro i
    simp only [cleanAux, List.filterMap_cons]
    cases h : processRow t r <;> simp [Except.toOption, ih (i + 1)]

/-- Every input row lands in exactly one of the two output lists. -/
theorem cleanAux_len (t : PDate) (rows : List Row) :
    ∀ i, (cleanAux t i rows).1.length + (cleanAux t i rows).2.length =
      rows.length := by
  induction rows with
  | nil => intro i; rfl
  | cons r rs ih =>
    intro i
    simp only [cleanAux]
    cases h : processRow t r <;> simp [List.length_cons] <;>
      have := ih (i + 1) <;> omega

/-- The diagnostic of a failing row is in the error report, tagged with
the spreadsheet-convention row number. -/
theorem cleanAux_err_mem (t : PDate) (rows : List Row) :
    ∀ i j r e, rows[j]? = some r → processRow t r = .error e →
      ("Row " ++ toString (i + j + 2) ++ ": " ++ e) ∈ (cleanAux t i rows).2 := by
  induction rows with
  | nil => intro i j r e h; simp at h
  | cons r0 rs ih =>
    intro i j r e hj hp
    cases j with
    | zero =>
      simp only [List.getElem?_cons_zero, Option.some.injEq] at hj
      subst hj
      simp only [Nat.add_zero, cleanAux, hp]
      exact List.mem_cons_self _ _
    | succ j' =>
      have hj' : rs[j']? = some r := by simpa using hj
      have hmem := ih (i + 1) j' r e hj' hp
      have harith : i + 1 + j' = i + (j' + 1) := by omega
      rw [harith] at hmem
      simp only [cleanAux]
      cases hpr : processRow t r0
      · exact List.mem_cons_of_mem _ hmem
      · exact hmem

/-- The error half of the loop is the ordered list of diagnostics of the
failing rows, enumerated from the starting counter. -/
theorem cleanAux_snd (t : PDate) (rows : List Row) :
    ∀ i, (cleanAux t i rows).2 =
      (rows.enumFrom i).filterMap fun p =>
        match processRow t p.2 with
        | .error e => some ("Row " ++ toString (p.1 + 2) ++ ": " ++ e)
        | .ok _ => none := by
  induction rows with
  | nil => intro i; rfl
  | cons r rs ih =>
    intro i
    simp only [cleanAux, List.enumFrom, List.filterMap_cons]
    cases h : processRow t r <;> simp [h, ih (i + 1)]

/-- Heads surviving `dropWhile` do not satisfy the predicate. -/
theorem head_dropWhile_not (p : Char → Bool) (l : List Char) (c : Char)
    (h : (l.dropWhile p).head? = some c) : p c = false := by
  induction l with
  | nil => simp at h
  | cons a t ih =>
    by_cases ha : p a
    · rw [List.dropWhile_cons, if_pos ha] at h
      exact ih h
    · rw [List.dropWhile_cons, if_neg ha] at h
      simp only [List.head?_cons, Option.some.injEq] at h
      subst h
      simpa using ha

/-- A list whose head does not satisfy the predicate is untouched by
`dropWhile`. -/
theorem dropWhile_eq_self_of_head (p : Char → Bool) (l : List Char)
    (h : ∀ c, l.head? = some c → p c = false) : l.dropWhile p = l := by
  cases l with
  | nil => rfl
  | cons a t =>
    have := h a rfl
    rw [List.dropWhile_cons, if_neg (by simp [this])]

/-- Dropping a prefix does not change the last element. -/
theorem getLast?_dropWhile (p : Char → Bool) (l : List Char)
    (h : l.dropWhile p ≠ []) : (l.dropWhile p).getLast? = l.getLast? := by
  induction l with
  | nil => simp at h
  | cons a t ih =>
    by_cases ha : p a
    · rw [List.dropWhile_cons, if_pos ha] at h ⊢
      rw [ih h]
      cases t with
      | nil => simp [List.dropWhile] at h
      | cons b t' => simp
    · rw [List.dropWhile_cons, if_neg ha]

/-- Stripping whitespace twice is the same as stripping once. -/
theorem stripList_idem (l : List Char) :
    stripList (stripList l) = stripList l := by
  unfold stripList
  have h1 : (((l.dropWhile isPySpace).reverse.dropWhile isPySpace).reverse).dropWhile
      isPySpace = ((l.dropWhile isPySpace).reverse.dropWhile isPySpace).reverse := by
    apply dropWhile_eq_self_of_head
    intro c hc
    rw [List.head?_reverse] at hc
    have hne : (l.dropWhile isPySpace).reverse.dropWhile isPySpace ≠ [] := by
      intro h0
      rw [h0] at hc
      simp at hc
    rw [getLast?_dropWhile _ _ hne, List.getLast?_reverse] at hc
    exact head_dropWhile_not isPySpace l c hc
  rw [h1, List.reverse_reverse]
  have h2 : ((l.dropWhile isPySpace).reverse.dropWhile isPySpace).dropWhile
      isPySpace = (l.dropWhile isPySpace).reverse.dropWhile isPySpace := by
    apply dropWhile_eq_self_of_head
    intro c hc
    exact head_dropWhile_not isPySpace (l.dropWhile isPySpace).reverse c hc
  rw [h2]

/-- Model of the idempotence of Python `str.strip()`. -/
theorem pyStrip_idem (s : String) : pyStrip (pyStrip s) = pyStrip s :=
  congrArg String.mk (stripList_idem s.data)

/-! Claim theorems. -/

/-- C1 (counterexample): the claimed semicolon fallback does not exist —
on the amenities cell "Parking;Gym" the code splits only on comma and
yields the single element "Parking;Gym", not ["Parking", "Gym"]. -/
theorem c1_amenities_semicolon_cex :
    parseAmenities [("amenities", Value.vstr "Parking;Gym")] = ["Parking;Gym"] ∧
    parseAmenities [("amenities", Value.vstr "Parking;Gym")] ≠ ["Parking", "Gym"] := by
  exact ⟨by decide, by decide⟩

/-- C1 (amended): amenities normalization yields the empty list when the
cell is absent or a missing value, and otherwise splits the raw text on
comma only — a semicolon is not a delimiter, so "Parking;Gym" stays one
element — with every resulting element trimmed. -/
theorem c1_amenities_comma_split :
    (∀ row : Row, rowGet row "amenities" = none → parseAmenities row = []) ∧
    (∀ row : Row, rowGet row "amenities" = some .vnan → parseAmenities row = []) ∧
    parseAmenities [("amenities", .vstr "Parking, Gym, Security")] =
      ["Parking", "Gym", "Security"] ∧
    parseAmenities [("amenities", .vstr "Parking;Gym")] = ["Parking;Gym"] ∧
    parseAmenities [("amenities", .vstr "Parking")] = ["Parking"] ∧
    (∀ (row : Row) (x : String), x ∈ parseAmenities row → pyStrip x = x) := by
  refine ⟨?_, ?_, by decide, by decide, by decide, ?_⟩
  · intro row h
    simp [parseAmenities, h]
  · intro row h
    simp [parseAmenities, h, notna]
  · intro row x hx
    unfold parseAmenities at hx
    cases hrg : rowGet row "amenities" with
    | none => rw [hrg] at hx; simp at hx
    | some v =>
      rw [hrg] at hx
      by_cases hn : notna v
      · simp only [hn, if_true] at hx
        obtain ⟨y, _, rfl⟩ := List.mem_map.mp hx
        exact pyStrip_idem y
      · simp [hn] at hx

/-- C1 (witness): concrete instances of the amended claim. -/
theorem c1_amenities_comma_split_witness :
    rowGet ([] : Row) "amenities" = none ∧ parseAmenities ([] : Row) = [] ∧
    ("Gym" ∈ parseAmenities [("amenities", Value.vstr "Parking, Gym")]) ∧
    pyStrip "Gym" = "Gym" :=
  ⟨by decide, c1_amenities_comma_split.1 [] (by decide), by decide,
   c1_amenities_comma_split.2.2.2.2.2 [("amenities", Value.vstr "Parking, Gym")]
     "Gym" (by decide)⟩

/-- C2 (counterexample): with every other required field valid, the
unparsable `available_from` value "not-a-date" does reject the row — no
record is produced and one diagnostic is recorded. -/
theorem c2_bad_date_cex :
    rowGet rowBadDate "available_from" = some (.vstr "not-a-date") ∧
    (clean_and_process sampleToday [rowBadDate]).1 = [] ∧
    (clean_and_process sampleToday [rowBadDate]).2.length = 1 := by
  exact ⟨by decide, by decide, by decide⟩

/-- C2 (amended): a present but unparsable textual `available_from`
value fails the whole row (the date-parse exception is caught by the
per-row handler, which drops the row); only absence of the value
defaults the field to the current system date. -/
theorem c2_available_from_policy :
    (∀ (t : PDate) (row : Row) (s : String),
        rowGet row "available_from" = some (.vstr s) → parseDate s = none →
        (processRow t row).isOk = false) ∧
    (∀ (t : PDate) (row : Row) (rec : PropertyRecord),
        rowGet row "available_from" = none → processRow t row = .ok rec →
        rec.available_from = t.toIso) := by
  constructor
  · intro t row s hrow hparse
    have haf : availFrom t row =
        .error ("Unknown datetime string format: " ++ s) := by
      simp [availFrom, hrow, hparse]
    rw [processRow_err_of_avail t row _ haf]
    rfl
  · intro t row rec hrow hok
    have h1 := (processRow_ok_inv t row rec hok).1
    simp only [availFrom, hrow, Except.ok.injEq] at h1
    exact h1.symm

/-- C2 (witness): the bad-date row is rejected; the dateless row gets
the sample current date. -/
theorem c2_available_from_policy_witness :
    (processRow sampleToday rowBadDate).isOk = false ∧
    recNoDate.available_from = sampleToday.toIso :=
  ⟨c2_available_from_policy.1 sampleToday rowBadDate "not-a-date"
     (by decide) (by decide),
   c2_available_from_policy.2 sampleToday rowNoDate recNoDate
     (by decide) (by rfl)⟩

/-- C3: every alias string of every canonical field is auto-detected to
that field on a singleton column list, and a column matching no alias is
returned unmatched with an empty mapping (against the spec-modelled
`auto_detect`, since the source's mapping step is manual). -/
theorem c3_auto_detect_aliases :
    (∀ (f : CanonicalField) (s : String), s ∈ fieldAliases f →
        auto_detect [s] = ([(s, f)], [])) ∧
    auto_detect ["totally_unknown_xyz"] = ([], ["totally_unknown_xyz"]) := by
  constructor
  · intro f s hs
    cases f <;> fin_cases hs <;> decide
  · decide

/-- C3 (witness): the "Monthly Rent" alias maps to `rent_amount`. -/
theorem c3_auto_detect_aliases_witness :
    ("Monthly Rent" ∈ fieldAliases CanonicalField.rent_amount) ∧
    auto_detect ["Monthly Rent"] =
      ([("Monthly Rent", CanonicalField.rent_amount)], []) :=
  ⟨by decide,
   c3_auto_detect_aliases.1 CanonicalField.rent_amount "Monthly Rent" (by decide)⟩

/-- C4 (counterexample): an empty string after trim in a required
textual field does not reject the row — the row with an empty `city`
cell produces a record and no diagnostic. -/
theorem c4_empty_required_text_cex :
    rowGet rowEmptyCity "city" = some (.vstr "") ∧
    (processRow sampleToday rowEmptyCity).isOk = true ∧
    (clean_and_process sampleToday [rowEmptyCity]).2 = [] := by
  exact ⟨by decide, by decide, by decide⟩

/-- C4 (amended): when coercion of a row fails (missing source column on
a directly indexed required field, unparsable number, unparsable date),
the whole row is rejected — only fully successful rows contribute a
record — and its diagnostic carries the 1-based original row number
counting the header as row 1 (first data row reported as row 2) together
with the reason; an empty string after trim in a textual required field
is not a coercion failure and is accepted. -/
theorem c4_row_rejection_diagnostics :
    (∀ (t : PDate) (rows : List Row),
        (clean_and_process t rows).1 =
          rows.filterMap fun r => (processRow t r).toOption) ∧
    (∀ (t : PDate) (rows : List Row) (i : ℕ) (r : Row) (e : String),
        rows[i]? = some r → processRow t r = .error e →
        ("Row " ++ toString (i + 2) ++ ": " ++ e) ∈
          (clean_and_process t rows).2) := by
  constructor
  · intro t rows
    exact cleanAux_fst t rows 0
  · intro t rows i r e hi hp
    have hmem := cleanAux_err_mem t rows 0 i r e hi hp
    simpa [clean_and_process] using hmem

/-- C4 (witness): the empty row fails on its first required field and is
reported as row 2. -/
theorem c4_row_rejection_diagnostics_witness :
    ([([] : Row)][0]? = some ([] : Row)) ∧
    processRow sampleToday ([] : Row) = .error "KeyError: property_type" ∧
    ("Row 2: KeyError: property_type") ∈
      (clean_and_process sampleToday [([] : Row)]).2 :=
  ⟨by decide, by rfl,
   c4_row_rejection_diagnostics.2 sampleToday [[]] 0 [] "KeyError: property_type"
     (by decide) (by rfl)⟩

/-- C5: normalization never aborts the batch on a failing row — the
produced records are exactly the successes of every row, in source row
order. -/
theorem c5_records_preserve_order :
    ∀ (t : PDate) (rows : List Row),
      (clean_and_process t rows).1 =
        rows.filterMap fun r => (processRow t r).toOption :=
  fun t rows => cleanAux_fst t rows 0

/-- C6: normalization is a total function — every input row is recovered
locally into exactly one of the two returned lists, and the error report
is precisely the ordered diagnostics of the failing rows; no malformed
cell content escapes to the caller. -/
theorem c6_total_accounting :
    ∀ (t : PDate) (rows : List Row),
      (clean_and_process t rows).1.length +
        (clean_and_process t rows).2.length = rows.length ∧
      (clean_and_process t rows).2 =
        rows.enum.filterMap fun p =>
          match processRow t p.2 with
          | .error e => some ("Row " ++ toString (p.1 + 2) ++ ": " ++ e)
          | .ok _ => none :=
  fun t rows => ⟨cleanAux_len t rows 0, cleanAux_snd t rows 0⟩

/-- C7: in a successfully produced record the missing optional fields
take their documented defaults — absent landmark gives the empty string,
absent floor fields give `none`, absent rough_description gives the
empty string — and the record type itself holds a value for every
canonical field. -/
theorem c7_optional_defaults :
    ∀ (t : PDate) (row : Row) (rec : PropertyRecord),
      processRow t row = .ok rec →
      (rowGet row "landmark" = none → rec.landmark = "") ∧
      (rowGet row "floor_no" = none → rec.floor_no = none) ∧
      (rowGet row "total_floors" = none → rec.total_floors = none) ∧
      (rowGet row "rough_description" = none → rec.rough_description = "") := by
  intro t row rec h
  obtain ⟨-, -, -, -, -, -, hland, hfl, htf, -, -, -, -, -, hrough⟩ :=
    processRow_ok_inv t row rec h
  refine ⟨?_, ?_, ?_, ?_⟩
  · intro h0
    rw [hland]
    simp [optStrS, h0, pyStrip, pyStr, stripList]
  · intro h0
    have hni : optInt row "floor_no" = .ok none := by simp [optInt, h0]
    have h1 := hni.symm.trans hfl
    simp only [Except.ok.injEq] at h1
    exact h1.symm
  · intro h0
    have hni : optInt row "total_floors" = .ok none := by simp [optInt, h0]
    have h1 := hni.symm.trans htf
    simp only [Except.ok.injEq] at h1
    exact h1.symm
  · intro h0
    rw [hrough]
    simp [optStrS, h0, pyStrip, pyStr, stripList]

/-- C7 (witness): the row carrying only the ten required columns still
produces a record, with the optional fields at their defaults. -/
theorem c7_optional_defaults_witness :
    processRow sampleToday rowMin = .ok recMin ∧
    recMin.landmark = "" ∧ recMin.floor_no = none ∧
    recMin.total_floors = none ∧ recMin.rough_description = "" :=
  ⟨by rfl,
   (c7_optional_defaults sampleToday rowMin recMin (by rfl)).1 (by decide),
   (c7_optional_defaults sampleToday rowMin recMin (by rfl)).2.1 (by decide),
   (c7_optional_defaults sampleToday rowMin recMin (by rfl)).2.2.1 (by decide),
   (c7_optional_defaults sampleToday rowMin recMin (by rfl)).2.2.2 (by decide)⟩

/-- C8: the required-field table has exactly ten entries, and on the
empty mapping `missing_required_fields` returns them all in declaration
order. -/
theorem c8_required_fields :
    REQUIRED_FIELDS.length = 10 ∧
    missing_required_fields [] =
      ["property_type", "bhk", "area_sqft", "city", "locality",
       "furnishing_status", "rent_amount", "deposit_amount",
       "available_from", "preferred_tenants"] := by
  exact ⟨by decide, by decide⟩

/-- C9: `area_sqft` is coerced by parsing the cell as a float and
truncating toward zero, and an absent or unparsable `area_sqft` cell
fails the row. -/
theorem c9_area_truncation :
    (∀ (t : PDate) (row : Row) (rec : PropertyRecord) (s : String) (q : ℚ),
        processRow t row = .ok rec → rowGet row "area_sqft" = some (.vstr s) →
        parseFloatStr s = some (.fin q) → rec.area_sqft = pytrunc q) ∧
    (∀ (t : PDate) (row : Row), rowGet row "area_sqft" = none →
        (processRow t row).isOk = false) ∧
    (∀ (t : PDate) (row : Row) (s : String),
        rowGet row "area_sqft" = some (.vstr s) → parseFloatStr s = none →
        (processRow t row).isOk = false) := by
  refine ⟨?_, ?_, ?_⟩
  · intro t row rec s q hok hrow hparse
    obtain ⟨-, -, -, ⟨v, f, hv, hf, htr⟩, -⟩ := processRow_ok_inv t row rec hok
    simp only [getItem, hrow, Except.ok.injEq] at hv
    subst hv
    simp only [pyFloatV, hparse, Except.ok.injEq] at hf
    subst hf
    simp only [pyIntOfFloat, Except.ok.injEq] at htr
    exact htr.symm
  · intro t row hrow
    cases hpr : processRow t row with
    | error e => rfl
    | ok rec =>
      exfalso
      obtain ⟨-, -, -, ⟨v, f, hv, -, -⟩, -⟩ := processRow_ok_inv t row rec hpr
      simp [getItem, hrow] at hv
  · intro t row s hrow hparse
    cases hpr : processRow t row with
    | error e => rfl
    | ok rec =>
      exfalso
      obtain ⟨-, -, -, ⟨v, f, hv, hf, -⟩, -⟩ := processRow_ok_inv t row rec hpr
      simp only [getItem, hrow, Except.ok.injEq] at hv
      subst hv
      simp [pyFloatV, hparse] at hf

/-- C9 (witness): the cell "1200.7" truncates to 1200, and the row
without an `area_sqft` column fails. -/
theorem c9_area_truncation_witness :
    parseFloatStr "1200.7" = some (.fin qArea) ∧
    processRow sampleToday rowArea = .ok recArea ∧
    recArea.area_sqft = pytrunc qArea ∧
    pytrunc qArea = 1200 ∧
    (processRow sampleToday rowNoArea).isOk = false :=
  ⟨by rfl, by rfl,
   c9_area_truncation.1 sampleToday rowArea recArea "1200.7" qArea
     (by rfl) (by decide) (by rfl),
   by
     have hq : qArea = (12007 : ℚ) / 10 := by unfold qArea; norm_num
     unfold pytrunc
     rw [hq, if_pos (by norm_num)]
     rw [Int.floor_eq_iff]
     norm_num,
   c9_area_truncation.2.1 sampleToday rowNoArea (by decide)⟩

/-- C10: a present NaN cell in an optional text column coerces to the
literal string "nan" in the record, while the empty-string default
applies exactly when the column key is absent from the row. -/
theorem c10_nan_optional_text :
    ∀ (t : PDate) (row : Row) (rec : PropertyRecord),
      processRow t row = .ok rec →
      (rowGet row "landmark" = some .vnan → rec.landmark = "nan") ∧
      (rowGet row "rough_description" = some .vnan →
        rec.rough_description = "nan") ∧
      (rowGet row "landmark" = none → rec.landmark = "") ∧
      (rowGet row "rough_description" = none → rec.rough_description = "") := by
  intro t row rec h
  obtain ⟨-, -, -, -, -, -, hland, -, -, -, -, -, -, -, hrough⟩ :=
    processRow_ok_inv t row rec h
  refine ⟨?_, ?_, ?_, ?_⟩
  · intro h0
    rw [hland]
    simp only [optStrS, h0]
    decide
  · intro h0
    rw [hrough]
    simp only [optStrS, h0]
    decide
  · intro h0
    rw [hland]
    simp only [optStrS, h0]
    decide
  · intro h0
    rw [hrough]
    simp only [optStrS, h0]
    decide

/-- C10 (witness): the row with NaN landmark and rough_description cells
produces a record holding the literal string "nan" in both fields. -/
theorem c10_nan_optional_text_witness :
    rowGet rowNan "landmark" = some .vnan ∧
    processRow sampleToday rowNan = .ok recNan ∧
    recNan.landmark = "nan" ∧ recNan.rough_description = "nan" :=
  ⟨by decide, by rfl,
   (c10_nan_optional_text sampleToday rowNan recNan (by rfl)).1 (by decide),
   (c10_nan_optional_text sampleToday rowNan recNan (by rfl)).2.1 (by decide)⟩

end Airent






